import Mathlib

/-!
Shallow embedding of the vhs-capture repository (src/scripts/capture.py and
src/app/main.py) and proofs of the spec claims about it.

Conventions of the embedding:
* Python `str` is `String`, Python `int` is `Int` (unbounded in Python).
* Impure inputs (wall-clock timestamps, spawned pids, whether the process
  exits within the stop grace period) are passed explicitly in an `Env`.
* Side effects (directory creation, log writes, signals, spawns) are
  returned as an explicit `Effect` list instead of being performed.
* Character classes from the source regexes are ASCII, exactly as the
  source patterns `[^a-zA-Z0-9_-]+` and shlex write them.
-/

namespace VhsCapture

/-- The set matched by the complement of `FILENAME_SAFE = [^a-zA-Z0-9_-]+`
in src/scripts/capture.py: ASCII letters, digits, underscore, hyphen. -/
def safeChar (c : Char) : Bool :=
  (('a' ≤ c && c ≤ 'z') || ('A' ≤ c && c ≤ 'Z') || ('0' ≤ c && c ≤ '9')
    || c == '_' || c == '-')

/-- `FILENAME_SAFE.sub("_", ·)` on a character list: each maximal run of
characters outside `safeChar` becomes a single underscore.  The Boolean
flag records whether the previous character was part of an unsafe run. -/
def subSafe : Bool → List Char → List Char
  | _, [] => []
  | b, c :: rest =>
    if safeChar c then c :: subSafe false rest
    else if b then subSafe true rest
    else '_' :: subSafe true rest

/-- The whitespace set stripped by Python `str.strip()` (restricted to the
ASCII whitespace characters, which are the only ones the claims involve). -/
def pyIsSpace (c : Char) : Bool :=
  c == ' ' || c == '\t' || c == '\n' || c == '\r'
    || c == Char.ofNat 11 || c == Char.ofNat 12

/-- Strip characters satisfying `p` from the front of a list. -/
def lstripBy (p : Char → Bool) (l : List Char) : List Char :=
  l.dropWhile p

/-- Strip characters satisfying `p` from the back of a list. -/
def rstripBy (p : Char → Bool) (l : List Char) : List Char :=
  (l.reverse.dropWhile p).reverse

/-- Python `str.strip(chars)`: strip from both ends. -/
def stripBy (p : Char → Bool) (l : List Char) : List Char :=
  rstripBy p (lstripBy p l)

/-- src/scripts/capture.py, `sanitize_filename`:
`cleaned = FILENAME_SAFE.sub("_", value.strip()); return cleaned.strip("_") or "capture"`. -/
def sanitize_filename (value : String) : String :=
  let cleaned := subSafe false (stripBy pyIsSpace value.data)
  let r := stripBy (fun c => c == '_') cleaned
  if r.isEmpty then "capture" else String.mk r

/-- Modelled from the spec (claim C5 wording): replace each maximal unsafe
run with a single underscore, trim leading/trailing underscores, fall back
to "capture" — with no whitespace pre-strip, which the spec does not
mention.  Used only to compare against `sanitize_filename`. -/
def sanitizeClaim (value : String) : String :=
  let cleaned := subSafe false value.data
  let r := stripBy (fun c => c == '_') cleaned
  if r.isEmpty then "capture" else String.mk r

/-- Python `int(str)` (ASCII): digit run with single underscores allowed
between digits.  Accumulates the value; `none` on any malformed tail. -/
def pyDigitsTail (acc : Nat) : List Char → Option Nat
  | [] => some acc
  | '_' :: c :: rest =>
    if c.isDigit then pyDigitsTail (acc * 10 + (c.toNat - 48)) rest else none
  | '_' :: [] => none
  | c :: rest =>
    if c.isDigit then pyDigitsTail (acc * 10 + (c.toNat - 48)) rest else none

/-- Nonempty digit run, first character must be a digit. -/
def pyDigits : List Char → Option Nat
  | [] => none
  | c :: rest =>
    if c.isDigit then pyDigitsTail (c.toNat - 48) rest else none

/-- Python `int(s)` for a string: optional surrounding whitespace, optional
sign, then digits (with Python's underscore grouping).  `none` models the
`ValueError` that `int` raises on malformed input. -/
def pyInt (s : String) : Option Int :=
  let l := stripBy pyIsSpace s.data
  match l with
  | '+' :: rest => (pyDigits rest).map (fun n => (n : Int))
  | '-' :: rest => (pyDigits rest).map (fun n => -(n : Int))
  | _ => (pyDigits l).map (fun n => (n : Int))

/-- The `ValueError`s raised inside `parse_duration` (all surfaced to the
caller as the spec's `InvalidDuration`). -/
inductive DurationError
  | required      -- "Duration is required."
  | badShape      -- "Duration must be in HH:MM:SS format."
  | badComponent  -- ValueError from int(part)
  deriving DecidableEq, Repr

/-- Python `value.split(":")` on a character list: the colon-separated
pieces, in order; the empty string yields one empty piece. -/
def pySplitColon : List Char → List (List Char)
  | [] => [[]]
  | c :: rest =>
    let r := pySplitColon rest
    if c == ':' then [] :: r
    else
      match r with
      | h :: t => (c :: h) :: t
      | [] => [[c]]

/-- The pieces of `value.split(":")` as strings. -/
def pyColonParts (value : String) : List String :=
  (pySplitColon value.data).map String.mk

/-- src/scripts/capture.py, `parse_duration`.  The `len(parts) != 3` test
is realised by the three-element pattern match. -/
def parse_duration (value : String) : Except DurationError Int :=
  if value = "" then .error .required
  else
    match pyColonParts value with
    | [a, b, c] =>
      match pyInt a, pyInt b, pyInt c with
      | some h, some m, some s => .ok (h * 3600 + m * 60 + s)
      | _, _, _ => .error .badComponent
    | _ => .error .badShape

/-- src/scripts/capture.py, `CaptureOptions` (a.k.a. the spec's
CaptureRequest).  The source field `filename_prefix` is renamed to
`fname_pfx` here. -/
structure CaptureOptions where
  video_device : String
  audio_device : String
  input_type : String
  duration_seconds : Int
  preset : String
  output_format : String
  fname_pfx : String
  tape_label : Option String
  dry_run : Bool
  test_preview : Bool
  deriving DecidableEq, Repr

/-- A spawned process handle: the pid and whether `poll()` currently
reports it alive (`poll() is None`).  Liveness changes are environmental
and are reflected by supplying a different pre-state to the next call. -/
structure ProcHandle where
  pid : Nat
  alive : Bool
  deriving DecidableEq, Repr

/-- The mutable fields of `CaptureManager` (src/scripts/capture.py,
`__init__`). -/
structure ManagerState where
  output_dir : String
  log_file : String
  process : Option ProcHandle
  stderr_tail : List String
  started_at : Option Nat
  duration_seconds : Option Int
  output_file : Option String
  deriving DecidableEq, Repr

/-- Filesystem / process side effects the Python code performs, recorded
instead of executed. -/
inductive Effect
  | ensureDir (path : String)
  | setInput (device idx : String)
  | openLog (path : String)
  | logWrite (text : String)
  | spawn (cmd : List String)
  | sendSignal (pid : Nat) (sig : String)
  | waitGrace (pid : Nat) (seconds : Nat)
  | kill (pid : Nat)
  deriving DecidableEq, Repr

/-- Impure inputs of one call, made explicit: current wall-clock time, the
`strftime("%Y%m%d_%H%M%S")` rendering of it, the pid a spawn would
produce, and whether the process exits within the 5 s stop grace period
(resolves the `wait(timeout=5)` race in `stop_capture`). -/
structure Env where
  now : Nat
  timestamp : String
  newPid : Nat
  exitsWithinGrace : Bool
  deriving DecidableEq, Repr

/-- `CaptureManager.is_running`: a process exists and `poll()` is None. -/
def is_running (st : ManagerState) : Bool :=
  match st.process with
  | some p => p.alive
  | none => false

/-- src/scripts/capture.py, `encode_flags`. -/
def encode_flags (preset_name : String) : List String :=
  if preset_name = "archival_lossless" then
    ["-c:v", "ffv1", "-level", "3", "-g", "1", "-slicecrc", "1", "-c:a", "flac"]
  else if preset_name = "passthrough_if_possible" then
    ["-c:v", "copy", "-c:a", "copy"]
  else
    ["-c:v", "libx264", "-preset", "veryfast", "-crf", "18",
     "-pix_fmt", "yuv420p", "-c:a", "aac", "-b:a", "192k"]

/-- src/scripts/capture.py, `build_ffmpeg_command`. -/
def build_ffmpeg_command (options : CaptureOptions) (duration : Int)
    (output_file : String) : List String :=
  ["ffmpeg", "-hide_banner", "-loglevel", "info",
   "-f", "v4l2", "-thread_queue_size", "4096", "-i", options.video_device,
   "-f", "alsa", "-thread_queue_size", "4096", "-i", options.audio_device,
   "-t", toString duration]
  ++ encode_flags options.preset ++ [output_file]

/-- src/scripts/capture.py, `build_output_path`.  The impure
`datetime.now().strftime(...)` is the explicit `timestamp` argument, and
`Path(output_dir) / filename` is modelled as joining with "/". -/
def build_output_path (output_dir : String) (pfx : String)
    (tape_label : Option String) (output_format : String)
    (timestamp : String) : String :=
  let safe_pfx := sanitize_filename (if pfx = "" then "capture" else pfx)
  let label := match tape_label with
    | some t => sanitize_filename t
    | none => ""
  let parts := [safe_pfx] ++ (if label = "" then [] else [label]) ++ [timestamp]
  let filename :=
    String.intercalate "_" (parts.filter (fun p => p ≠ "")) ++ "." ++ output_format
  output_dir ++ "/" ++ filename

/-- The single-quote character, used by the shlex model. -/
def sq : Char := Char.ofNat 39

/-- The shlex safe set (ASCII `\w` plus `@ % + = : , .` slash hyphen,
from `shlex._find_unsafe`). -/
def shlexSafe (c : Char) : Bool :=
  (('a' ≤ c && c ≤ 'z') || ('A' ≤ c && c ≤ 'Z') || ('0' ≤ c && c ≤ '9')
    || c == '_' || c == '@' || c == '%' || c == '+' || c == '='
    || c == ':' || c == ',' || c == '.' || c == '/' || c == '-')

/-- `shlex.quote`: empty becomes two quotes, safe strings pass through,
anything else is single-quoted with embedded quotes escaped as the
five-character sequence quote, dquote, quote, dquote, quote. -/
def shlexQuote (s : String) : String :=
  if s = "" then String.mk [sq, sq]
  else if s.data.all shlexSafe then s
  else
    let esc := s.data.foldr
      (fun c acc => if c == sq then [sq, '"', sq, '"', sq] ++ acc else c :: acc) []
    String.mk ([sq] ++ esc ++ [sq])

/-- src/scripts/capture.py, `set_input_type`: only the composite/s-video
input types trigger a `v4l2-ctl --set-input` call; anything else is a
no-op. -/
def set_input_type (video_device input_type : String) : List Effect :=
  if input_type = "composite" then [.setInput video_device "0"]
  else if input_type = "s-video" then [.setInput video_device "1"]
  else []

/-- src/scripts/capture.py, `CaptureManager.start_capture`.  Returns the
`(success, message, output_file)` triple, the post-state, and the side
effects performed, in program order. -/
def start_capture (env : Env) (options : CaptureOptions) (st : ManagerState) :
    (Bool × String × Option String) × ManagerState × List Effect :=
  if is_running st then
    ((false, "Capture already running.", none), st, [])
  else
    let duration := if options.test_preview then 10 else options.duration_seconds
    let output_file := build_output_path st.output_dir options.fname_pfx
      options.tape_label options.output_format env.timestamp
    let cmd := build_ffmpeg_command options duration output_file
    if options.dry_run then
      ((true, "Dry run command: " ++ String.intercalate " " (cmd.map shlexQuote),
        some output_file), st, [])
    else
      let startMarker := "\n== Capture start " ++ env.timestamp ++ " ==\n"
      let effects := [Effect.ensureDir st.output_dir]
        ++ set_input_type options.video_device options.input_type
        ++ [Effect.openLog st.log_file, Effect.logWrite startMarker,
            Effect.spawn cmd]
      let st' : ManagerState :=
        { st with
          process := some ⟨env.newPid, true⟩
          stderr_tail := []
          started_at := some env.now
          duration_seconds := some duration
          output_file := some output_file }
      ((true, "Capture started.", some output_file), st', effects)

/-- src/scripts/capture.py, `CaptureManager.stop_capture`.  The manager's
own fields are not mutated by `stop_capture`; process death is
environmental and shows up in the next pre-state's `alive` flag. -/
def stop_capture (env : Env) (st : ManagerState) :
    (Bool × String) × ManagerState × List Effect :=
  match st.process with
  | some p =>
    if p.alive then
      let effects := [Effect.sendSignal p.pid "SIGINT", Effect.waitGrace p.pid 5]
        ++ (if env.exitsWithinGrace then [] else [Effect.kill p.pid])
      ((true, "Stop signal sent."), st, effects)
    else ((false, "No capture running."), st, [])
  | none => ((false, "No capture running."), st, [])

/-- Bounded-deque append: `deque(maxlen=50).append`, keeping the last 50
entries. -/
def pushTail (t : List String) (s : String) : List String :=
  let t' := t ++ [s]
  t'.drop (t'.length - 50)

/-- Python `line.rstrip("\n")`. -/
def rstripNewline (s : String) : String :=
  String.mk (rstripBy (fun c => c == '\n') s.data)

/-- The tail-building loop of `CaptureManager._capture_stderr`: each
stream line is newline-stripped and appended to the bounded tail. -/
def feedLines (t : List String) (lines : List String) : List String :=
  lines.foldl (fun acc l => pushTail acc (rstripNewline l)) t

/-- `CaptureManager.status`: a pure snapshot of the session fields. -/
structure CaptureStatus where
  running : Bool
  output_file : Option String
  started_at : Option Nat
  duration_seconds : Option Int
  stderr_tail : List String
  deriving DecidableEq, Repr

/-- src/scripts/capture.py, `CaptureManager.status`. -/
def status (st : ManagerState) : CaptureStatus :=
  { running := is_running st
    output_file := st.output_file
    started_at := st.started_at
    duration_seconds := st.duration_seconds
    stderr_tail := st.stderr_tail }

/-- Errors raised by `build_options` in src/app/main.py (HTTP 400s). -/
inductive BuildError
  | missingDevice
  | invalidDuration (e : DurationError)
  deriving DecidableEq, Repr

/-- Python truthiness of the raw `dry_run` / `test_preview` form values
(`None` or a string): `bool(x)`. -/
def truthy : Option String → Bool
  | some s => s ≠ ""
  | none => false

/-- src/app/main.py, `build_options`: the Options Normalizer.  Validates
devices and duration, then builds `CaptureOptions` with `tape_label or
None` and `bool(...)` coercion of the two flags. -/
def build_options (video_device audio_device input_type duration preset_name
    output_format fname tape_label : String)
    (dry_run test_preview : Option String) :
    Except BuildError CaptureOptions :=
  if video_device = "" ∨ audio_device = "" then .error .missingDevice
  else
    match parse_duration duration with
    | .error e => .error (.invalidDuration e)
    | .ok d =>
      .ok { video_device := video_device
            audio_device := audio_device
            input_type := input_type
            duration_seconds := d
            preset := preset_name
            output_format := output_format
            fname_pfx := fname
            tape_label := if tape_label = "" then none else some tape_label
            dry_run := truthy dry_run
            test_preview := truthy test_preview }

/-! Concrete inputs used by the witness theorems. -/

/-- A concrete request used in witnesses: preview on, 2 h requested. -/
def wOpts : CaptureOptions :=
  ⟨"/dev/video0", "hw:1,0", "composite", 7200, "high_quality_h264", "mkv",
   "vhs", none, false, true⟩

/-- A concrete dry-run request. -/
def wOptsDry : CaptureOptions :=
  ⟨"/dev/video0", "hw:1,0", "composite", 1800, "archival_lossless", "mkv",
   "vhs", some "Tape 3", true, false⟩

/-- A state with a live process (pid 7) and populated session fields. -/
def wRun : ManagerState :=
  ⟨"/out", "/out/vhs-ui.log", some ⟨7, true⟩, ["frame drop"], some 5, some 60,
   some "/out/a.mkv"⟩

/-- A state with no process at all. -/
def wIdle : ManagerState :=
  ⟨"/out", "/out/vhs-ui.log", none, [], none, none, none⟩

/-- A concrete environment whose process does not exit within the grace
period. -/
def wEnv : Env := ⟨100, "20260101_000000", 4242, false⟩

/-- C1: with a live process, a second `start` fails with the
AlreadyRunning message, returns no path, leaves every manager field
unchanged and performs no side effect. -/
theorem start_while_running_rejected (env : Env) (options : CaptureOptions)
    (st : ManagerState) (h : is_running st = true) :
    start_capture env options st =
      ((false, "Capture already running.", none), st, []) := by
  simp [start_capture, h]

/-- Witness for C1 at a concrete running state. -/
theorem start_while_running_rejected_witness :
    is_running wRun = true ∧
      start_capture wEnv wOpts wRun =
        ((false, "Capture already running.", none), wRun, []) :=
  ⟨rfl, start_while_running_rejected wEnv wOpts wRun rfl⟩

/-- C2: with a live process, `stop` sends SIGINT (not a kill), waits the
fixed 5-second grace period, kills exactly when the process is still
alive afterwards, mutates no manager field, and reports success in every
such case. -/
theorem stop_running_signals_and_succeeds (env : Env) (st : ManagerState)
    (p : ProcHandle) (hp : st.process = some p) (halive : p.alive = true) :
    stop_capture env st =
      ((true, "Stop signal sent."), st,
        [Effect.sendSignal p.pid "SIGINT", Effect.waitGrace p.pid 5]
          ++ (if env.exitsWithinGrace then [] else [Effect.kill p.pid]))
    ∧ (Effect.kill p.pid ∈ (stop_capture env st).2.2 ↔
        env.exitsWithinGrace = false) := by
  constructor
  · simp [stop_capture, hp, halive]
  · cases hexit : env.exitsWithinGrace <;> simp [stop_capture, hp, halive, hexit]

/-- Witness for C2: concrete live process, no voluntary exit, so the kill
escalation is present and the call still succeeds. -/
theorem stop_running_signals_and_succeeds_witness :
    wRun.process = some ⟨7, true⟩ ∧
      stop_capture wEnv wRun =
        ((true, "Stop signal sent."), wRun,
          [Effect.sendSignal 7 "SIGINT", Effect.waitGrace 7 5, Effect.kill 7])
    ∧ Effect.kill 7 ∈ (stop_capture wEnv wRun).2.2 :=
  ⟨rfl,
    (stop_running_signals_and_succeeds wEnv wRun ⟨7, true⟩ rfl rfl).1,
    ((stop_running_signals_and_succeeds wEnv wRun ⟨7, true⟩ rfl rfl).2).mpr rfl⟩

/-- C3: with no live process, `stop` fails with the NotRunning message,
delivers no signal (empty effect list) and leaves the state unchanged. -/
theorem stop_not_running_noop (env : Env) (st : ManagerState)
    (h : is_running st = false) :
    stop_capture env st = ((false, "No capture running."), st, []) := by
  unfold stop_capture
  cases hp : st.process with
  | none => simp
  | some p =>
    have halive : p.alive = false := by simpa [is_running, hp] using h
    simp [halive]

/-- Witness for C3 at a concrete idle state. -/
theorem stop_not_running_noop_witness :
    is_running wIdle = false ∧
      stop_capture wEnv wIdle = ((false, "No capture running."), wIdle, []) :=
  ⟨rfl, stop_not_running_noop wEnv wIdle rfl⟩

/-- C6: a dry-run `start` under the idle precondition succeeds with a
non-empty command rendering and the resolved output path, performs no
side effect, and leaves every manager field unchanged. -/
theorem start_dry_run_pure (env : Env) (options : CaptureOptions)
    (st : ManagerState) (hrun : is_running st = false)
    (hdry : options.dry_run = true) :
    let path := build_output_path st.output_dir options.fname_pfx
      options.tape_label options.output_format env.timestamp
    let msg := "Dry run command: " ++ String.intercalate " "
      ((build_ffmpeg_command options
        (if options.test_preview then 10 else options.duration_seconds)
        path).map shlexQuote)
    start_capture env options st = ((true, msg, some path), st, []) ∧ msg ≠ "" := by
  refine ⟨by simp [start_capture, hrun, hdry], ?_⟩
  intro hcontra
  apply_fun String.length at hcontra
  rw [String.length_append] at hcontra
  have h17 : ("Dry run command: " : String).length = 17 := rfl
  have h0 : ("" : String).length = 0 := rfl
  omega

/-- Witness for C6 at a concrete dry-run request and idle state. -/
theorem start_dry_run_pure_witness :
    is_running wIdle = false ∧ wOptsDry.dry_run = true ∧
      (start_capture wEnv wOptsDry wIdle =
        ((true,
          "Dry run command: " ++ String.intercalate " "
            ((build_ffmpeg_command wOptsDry 1800
              (build_output_path "/out" "vhs" (some "Tape 3") "mkv"
                "20260101_000000")).map shlexQuote),
          some (build_output_path "/out" "vhs" (some "Tape 3") "mkv"
            "20260101_000000")), wIdle, [])) :=
  ⟨rfl, rfl, (start_dry_run_pure wEnv wOptsDry wIdle rfl rfl).1⟩

/-- C8: a real (non-dry-run) `start` under the idle precondition records
effective duration 10 when the preview flag is set and the requested
duration verbatim otherwise, and the spawned command carries that same
value as its time-limit argument right after "-t". -/
theorem start_effective_duration (env : Env) (options : CaptureOptions)
    (st : ManagerState) (hrun : is_running st = false)
    (hdry : options.dry_run = false) :
    let d := if options.test_preview then 10 else options.duration_seconds
    (start_capture env options st).2.1.duration_seconds = some d ∧
    ∃ cmd, Effect.spawn cmd ∈ (start_capture env options st).2.2 ∧
      cmd[16]? = some "-t" ∧ cmd[17]? = some (toString d) := by
  intro d
  refine ⟨by simp [start_capture, hrun, hdry], ?_⟩
  refine ⟨build_ffmpeg_command options d
    (build_output_path st.output_dir options.fname_pfx options.tape_label
      options.output_format env.timestamp), ?_, rfl,
    by simp [build_ffmpeg_command]⟩
  simp [start_capture, hrun, hdry]

/-- Witness for C8: preview on with 2 h requested records 10 s. -/
theorem start_effective_duration_witness :
    is_running wIdle = false ∧ wOpts.dry_run = false ∧
      wOpts.test_preview = true ∧ wOpts.duration_seconds = 7200 ∧
      (start_capture wEnv wOpts wIdle).2.1.duration_seconds = some 10 :=
  ⟨rfl, rfl, rfl, rfl,
    (start_effective_duration wEnv wOpts wIdle rfl rfl).1⟩

/-- C10: every preset other than the two recognized names silently
selects the H.264/AAC quality flag list; nothing is rejected. -/
theorem encode_flags_default_branch (p : String)
    (h1 : p ≠ "archival_lossless") (h2 : p ≠ "passthrough_if_possible") :
    encode_flags p =
      ["-c:v", "libx264", "-preset", "veryfast", "-crf", "18",
       "-pix_fmt", "yuv420p", "-c:a", "aac", "-b:a", "192k"] := by
  simp [encode_flags, h1, h2]

/-- Witness for C10 at the documented but unrecognized preset name. -/
theorem encode_flags_default_branch_witness :
    encode_flags "high_quality_h264" =
      ["-c:v", "libx264", "-preset", "veryfast", "-crf", "18",
       "-pix_fmt", "yuv420p", "-c:a", "aac", "-b:a", "192k"] :=
  encode_flags_default_branch "high_quality_h264" (by decide) (by decide)

/-- Counterexample to C9 as stated: the normalizer accepts "00:00:00"
and produces a request whose duration is 0, not > 0. -/
theorem build_options_zero_duration_counterexample :
    build_options "v" "a" "composite" "00:00:00" "archival_lossless" "mkv"
        "capture" "" none none =
      Except.ok ⟨"v", "a", "composite", 0, "archival_lossless", "mkv",
        "capture", none, false, false⟩
    ∧ ¬((0 : Int) > 0) :=
  ⟨rfl, by decide⟩

/-- C9 amended: the normalizer passes the parsed duration through with no
positivity check — a successfully built request's duration equals exactly
what `parse_duration` returned (which may be zero or negative). -/
theorem build_options_duration_passthrough (video_device audio_device
    input_type duration preset_name output_format fname tape_label : String)
    (dry_run test_preview : Option String) (o : CaptureOptions)
    (h : build_options video_device audio_device input_type duration
      preset_name output_format fname tape_label dry_run test_preview =
        Except.ok o) :
    parse_duration duration = Except.ok o.duration_seconds := by
  unfold build_options at h
  by_cases hdev : video_device = "" ∨ audio_device = ""
  · simp [hdev] at h
  · simp only [hdev, if_false] at h
    cases hd : parse_duration duration with
    | error e => rw [hd] at h; exact absurd h (by simp)
    | ok d => rw [hd] at h; simp at h; rw [← h]

/-- Witness for the amended C9 at a concrete successful build. -/
theorem build_options_duration_passthrough_witness :
    build_options "v" "a" "composite" "01:02:03" "archival_lossless" "mkv"
        "capture" "" none none =
      Except.ok ⟨"v", "a", "composite", 3723, "archival_lossless", "mkv",
        "capture", none, false, false⟩
    ∧ parse_duration "01:02:03" = Except.ok 3723 :=
  ⟨rfl,
    build_options_duration_passthrough "v" "a" "composite" "01:02:03"
      "archival_lossless" "mkv" "capture" "" none none
      ⟨"v", "a", "composite", 3723, "archival_lossless", "mkv", "capture",
        none, false, false⟩ rfl⟩

/-! Bounded-tail lemmas (claim C7). -/

/-- The last `n` entries of a list. -/
def lastN (n : Nat) (l : List α) : List α :=
  l.drop (l.length - n)

theorem lastN_eq_reverse_take (n : Nat) (l : List α) :
    lastN n l = (l.reverse.take n).reverse := by
  rw [lastN, List.take_reverse, List.reverse_reverse]

theorem take_reverse_absorb (n : Nat) (x y : List α) :
    List.take n (lastN n x ++ y).reverse = List.take n (x ++ y).reverse := by
  rw [List.reverse_append, List.reverse_append, lastN_eq_reverse_take,
    List.reverse_reverse, List.take_append_eq_append_take,
    List.take_append_eq_append_take, List.take_take, List.length_reverse]
  congr 1
  rw [inf_eq_left.mpr (Nat.sub_le n y.length)]

theorem lastN_absorb (n : Nat) (x y : List α) :
    lastN n (lastN n x ++ y) = lastN n (x ++ y) := by
  rw [lastN_eq_reverse_take n (lastN n x ++ y), lastN_eq_reverse_take n (x ++ y),
    take_reverse_absorb]

theorem pushTail_eq_lastN (t : List String) (s : String) :
    pushTail t s = lastN 50 (t ++ [s]) := rfl

theorem foldl_pushTail_lastN (ls : List String) :
    ∀ x : List String, List.foldl pushTail (lastN 50 x) ls = lastN 50 (x ++ ls) := by
  induction ls with
  | nil => intro x; simp
  | cons s rest ih =>
    intro x
    rw [List.foldl_cons, pushTail_eq_lastN, lastN_absorb]
    have := ih (x ++ [s])
    simpa using this

/-- C7: the collector's tail never exceeds 50 entries, and feeding any
sequence of lines from a fresh session leaves exactly the last 50
(newline-stripped) lines in their original relative order. -/
theorem tail_keeps_last_fifty (lines : List String) :
    (feedLines [] lines).length ≤ 50 ∧
      feedLines [] lines = (lines.map rstripNewline).drop (lines.length - 50) := by
  have h1 : feedLines [] lines =
      List.foldl pushTail [] (lines.map rstripNewline) := by
    rw [List.foldl_map]; rfl
  have h2 : List.foldl pushTail [] (lines.map rstripNewline) =
      lastN 50 (lines.map rstripNewline) := by
    have := foldl_pushTail_lastN (lines.map rstripNewline) []
    simpa [lastN] using this
  have h3 : feedLines [] lines = lastN 50 (lines.map rstripNewline) :=
    h1.trans h2
  constructor
  · rw [h3, lastN, List.length_drop, List.length_map]
    omega
  · rw [h3, lastN, List.length_map]

/-! Duration-parsing lemmas (claim C4). -/

/-- `parse_duration` succeeds exactly on inputs whose colon-split has
three integer components, and then returns `H*3600 + M*60 + S`. -/
theorem parse_duration_hms (s : String) (v : Int) :
    parse_duration s = Except.ok v ↔
      ∃ a b c H M S, pyColonParts s = [a, b, c] ∧ pyInt a = some H ∧
        pyInt b = some M ∧ pyInt c = some S ∧ v = H * 3600 + M * 60 + S := by
  by_cases hs : s = ""
  · subst hs
    have hp : pyColonParts "" = [""] := rfl
    simp [parse_duration, hp]
  · rcases hp : pyColonParts s with _ | ⟨a, _ | ⟨b, _ | ⟨c, _ | ⟨d, t⟩⟩⟩⟩ <;>
      first
      | (simp [parse_duration, hs, hp]; done)
      | skip
    cases hA : pyInt a with
    | none => simp [parse_duration, hs, hp, hA]
    | some H =>
      cases hB : pyInt b with
      | none => simp [parse_duration, hs, hp, hA, hB]
      | some M =>
        cases hC : pyInt c with
        | none => simp [parse_duration, hs, hp, hA, hB, hC]
        | some S =>
          simp only [parse_duration, if_neg hs, hp, hA, hB, hC]
          constructor
          · intro h
            injection h with h
            exact ⟨a, b, c, H, M, S, rfl, hA, hB, hC, h.symm⟩
          · rintro ⟨a2, b2, c2, H2, M2, S2, hp2, hA2, hB2, hC2, hv⟩
            obtain ⟨rfl, rfl, rfl⟩ : a = a2 ∧ b = b2 ∧ c = c2 := by
              have := hp2
              injection this with h1 h2
              injection h2 with h2 h3
              injection h3 with h3 _
              exact ⟨h1, h2, h3⟩
            rw [hA] at hA2
            rw [hB] at hB2
            rw [hC] at hC2
            injection hA2 with hA2
            injection hB2 with hB2
            injection hC2 with hC2
            rw [hv, hA2, hB2, hC2]

/-- C4: `parse_duration` returns `H*3600 + M*60 + S` exactly when the
input has three colon-separated integer components, and fails otherwise
(wrong component count, non-numeric component, or empty input). -/
theorem parse_duration_spec :
    (∀ (s : String) (v : Int),
      parse_duration s = Except.ok v ↔
        ∃ a b c H M S, pyColonParts s = [a, b, c] ∧ pyInt a = some H ∧
          pyInt b = some M ∧ pyInt c = some S ∧ v = H * 3600 + M * 60 + S)
    ∧ parse_duration "01:02:03" = Except.ok 3723
    ∧ parse_duration "" = Except.error DurationError.required
    ∧ parse_duration "1:2" = Except.error DurationError.badShape
    ∧ parse_duration "aa:bb:cc" = Except.error DurationError.badComponent :=
  ⟨parse_duration_hms, rfl, rfl, rfl, rfl⟩

/-! Sanitization lemmas (claim C5). -/

/-- The unsafe-run flag after scanning `l` starting from flag `b`. -/
def outFlag (b : Bool) (l : List Char) : Bool :=
  l.foldl (fun _ c => !safeChar c) b

theorem subSafe_append (l : List Char) :
    ∀ (b : Bool) (m : List Char),
      subSafe b (l ++ m) = subSafe b l ++ subSafe (outFlag b l) m := by
  induction l with
  | nil => intro b m; simp [subSafe, outFlag]
  | cons c r ih =>
    intro b m
    cases hc : safeChar c with
    | true => simp [subSafe, hc, outFlag, List.foldl_cons, ih]
    | false =>
      cases b <;> simp [subSafe, hc, outFlag, List.foldl_cons, ih]

theorem dropU_subSafe_flag (l : List Char) :
    List.dropWhile (fun c => c == '_') (subSafe true l) =
      List.dropWhile (fun c => c == '_') (subSafe false l) := by
  cases l with
  | nil => rfl
  | cons c r =>
    cases hc : safeChar c with
    | true => simp [subSafe, hc]
    | false => simp [subSafe, hc, List.dropWhile]

theorem ws_not_safe (c : Char) (h : pyIsSpace c = true) : safeChar c = false := by
  simp [pyIsSpace] at h
  rcases h with ((((h | h) | h) | h) | h) | h <;> subst h <;> decide

theorem dropU_subSafe_dropWS (l : List Char) :
    List.dropWhile (fun c => c == '_')
        (subSafe false (List.dropWhile pyIsSpace l)) =
      List.dropWhile (fun c => c == '_') (subSafe false l) := by
  induction l with
  | nil => rfl
  | cons c r ih =>
    cases hw : pyIsSpace c with
    | false => simp [List.dropWhile, hw]
    | true =>
      have hc : safeChar c = false := ws_not_safe c hw
      rw [List.dropWhile_cons_of_pos (by simpa using hw)]
      rw [ih]
      show _ = List.dropWhile _ (subSafe false (c :: r))
      simp [subSafe, hc, List.dropWhile, dropU_subSafe_flag]

theorem stripU_append_underscore (y : List Char) :
    stripBy (fun c => c == '_') (y ++ ['_']) =
      stripBy (fun c => c == '_') y := by
  unfold stripBy lstripBy rstripBy
  rw [List.dropWhile_append]
  cases hy : (List.dropWhile (fun c => c == '_') y).isEmpty with
  | true =>
    have h0 : List.dropWhile (fun c => c == '_') y = [] := by
      simpa [List.isEmpty_iff] using hy
    simp [h0, List.dropWhile]
  | false =>
    simp only [Bool.false_eq_true, if_false, List.reverse_append]
    simp [List.dropWhile]

theorem stripU_subSafe_rstripWS (l : List Char) :
    stripBy (fun c => c == '_') (subSafe false (rstripBy pyIsSpace l)) =
      stripBy (fun c => c == '_') (subSafe false l) := by
  induction l using List.reverseRecOn with
  | nil => rfl
  | append_singleton l c ih =>
    cases hw : pyIsSpace c with
    | false =>
      have : rstripBy pyIsSpace (l ++ [c]) = l ++ [c] := by
        unfold rstripBy
        rw [List.reverse_append]
        simp [List.dropWhile, hw]
      rw [this]
    | true =>
      have hc : safeChar c = false := ws_not_safe c hw
      have hr : rstripBy pyIsSpace (l ++ [c]) = rstripBy pyIsSpace l := by
        unfold rstripBy
        rw [List.reverse_append]
        simp [List.dropWhile, hw]
      rw [hr, ih, subSafe_append]
      cases hf : outFlag false l with
      | true => simp [subSafe, hc, hf]
      | false =>
        have h1 : subSafe false [c] = ['_'] := by simp [subSafe, hc]
        rw [h1, stripU_append_underscore]

theorem stripU_subSafe_stripWS (l : List Char) :
    stripBy (fun c => c == '_') (subSafe false (stripBy pyIsSpace l)) =
      stripBy (fun c => c == '_') (subSafe false l) := by
  show stripBy _ (subSafe false (rstripBy pyIsSpace (lstripBy pyIsSpace l))) = _
  rw [stripU_subSafe_rstripWS]
  unfold stripBy
  rw [show lstripBy pyIsSpace l = List.dropWhile pyIsSpace l from rfl]
  unfold lstripBy rstripBy
  rw [dropU_subSafe_dropWS]

/-- The source sanitizer and the claim-worded sanitizer agree on every
input: the source only additionally pre-strips surrounding whitespace,
which the underscore-replacement plus underscore-trim already absorb. -/
theorem sanitize_agrees (s : String) : sanitize_filename s = sanitizeClaim s := by
  unfold sanitize_filename sanitizeClaim
  simp only [stripU_subSafe_stripWS]


/-- C5: `sanitize_filename` behaves exactly as described — each maximal
unsafe run becomes one underscore, leading/trailing underscores are
trimmed, empty results fall back to "capture" — and the quoted examples
hold. -/
theorem sanitize_filename_spec :
    (∀ s : String, sanitize_filename s = sanitizeClaim s)
    ∧ sanitize_filename "  a/b*c  " = "a_b_c"
    ∧ sanitize_filename "" = "capture"
    ∧ sanitize_filename "___" = "capture" :=
  ⟨sanitize_agrees, rfl, rfl, rfl⟩

end VhsCapture
